import Mathlib

/-!
Shallow embedding of `swirlypy/course.py` (class `Course`), covering:
lesson-identifier resolution (`Course.execute_lesson`, lines 60-89), the
packaged-course temporary-extraction lifecycle (lines 91-128), the
interactive selection loop (`Course.execute`, lines 40-58), and course
loading (`Course.__init__`, `Course.load_yaml`, lines 15-23 / 153-170).

Python built-ins used by the code are modelled on `List Char`:
`str.strip()` as `pyStrip` (ASCII whitespace), `int(s)` as `parseInt`
(optional sign, nonempty ASCII digit run; Python's underscore digit
grouping and non-ASCII digits are not modelled), `str.split(";")` as
`pySplitOn`, list indexing `l[i]` (with Python's negative-index
wraparound) as `pyListGet`, and `list.index` + indexing as `List.find?`.
Filesystem effects (`tempfile.mkdtemp`, `tarfile.extractall`,
`shutil.rmtree(ignore_errors=True)`) are modelled by explicit state
passing over an abstract filesystem `FS` holding the set of existing
temporary directories; fallible steps (extraction, path construction,
open, YAML parse, lesson execution, directory removal) are driven by a
per-attempt outcome oracle `AttemptEnv`.
-/

/-- ASCII whitespace recognised by Python `str.strip()`. -/
def isPySpace (c : Char) : Bool :=
  c == ' ' || c == '\t' || c == '\n' || c == '\r' || c == '\x0b' || c == '\x0c'

/-- `str.strip()` on the character list: drop whitespace at both ends. -/
def pyStripChars (l : List Char) : List Char :=
  ((l.dropWhile isPySpace).reverse.dropWhile isPySpace).reverse

/-- Python `str.strip()` with no argument. -/
def pyStrip (s : String) : String := String.mk (pyStripChars s.data)

/-- Value of a nonempty all-digit character run, accumulator style. -/
def digitsValAux (acc : Nat) : List Char → Option Nat
  | [] => some acc
  | c :: rest =>
    if c.isDigit then digitsValAux (acc * 10 + (c.toNat - 48)) rest else none

/-- Parse a nonempty run of ASCII digits; `none` on empty input or any
non-digit character. -/
def parseDigits : List Char → Option Nat
  | [] => none
  | c :: rest =>
    if c.isDigit then digitsValAux (c.toNat - 48) rest else none

/-- Python `int(s)` on a string: strip surrounding whitespace, allow one
leading `+` or `-`, then a nonempty digit run; `none` models
`ValueError`. -/
def parseInt (s : String) : Option Int :=
  match pyStripChars s.data with
  | '-' :: rest => (parseDigits rest).map (fun n => -(n : Int))
  | '+' :: rest => (parseDigits rest).map (fun n => (n : Int))
  | l => (parseDigits l).map (fun n => (n : Int))

/-- Python list indexing `l[i]` for a possibly negative `i`: a negative
index counts from the end; out of range (either side) is `IndexError`,
modelled as `none`. -/
def pyListGet (l : List String) (i : Int) : Option String :=
  let j : Int := if i < 0 then (l.length : Int) + i else i
  if j < 0 then none else l.get? j.toNat

/-- `str.split(sep)` for a one-character separator, on character lists.
Always returns at least one piece; empty pieces are kept, matching
Python (`"".split(";") == [""]`). -/
def pySplitChars (sep : Char) : List Char → List (List Char)
  | [] => [[]]
  | c :: rest =>
    if c == sep then [] :: pySplitChars sep rest
    else
      match pySplitChars sep rest with
      | [] => [[c]]
      | h :: t => (c :: h) :: t

/-- Python `s.split(sep)` for a one-character separator. -/
def pySplitOn (s : String) (sep : Char) : List String :=
  (pySplitChars sep s.data).map (fun cs => String.mk cs)

/-- The exceptions `Course.execute_lesson` can raise or propagate:
`NoSuchLessonException` from the resolver, and the hard failures of one
lesson attempt (archive extraction, lesson-path construction, opening
the lesson file, YAML-parsing it, executing it). -/
inductive PyError where
  | noSuchLesson
  | extractError
  | pathError
  | openError
  | parseError
  | execError
deriving DecidableEq, Repr

/-- The index branch of `Course.execute_lesson` (lines 76-80):
`self.lessonnames[identifier - 1]`, with `IndexError` becoming
`NoSuchLessonException`. -/
def resolveByIndex (lessonnames : List String) (n : Int) :
    Except PyError String :=
  match pyListGet lessonnames (n - 1) with
  | some nm => .ok nm
  | none => .error .noSuchLesson

/-- The name branch (lines 81-89): `lessonnames[lessonnames.index(identifier)]`,
with `ValueError` from `list.index` becoming `NoSuchLessonException`. -/
def resolveByName (lessonnames : List String) (identifier : String) :
    Except PyError String :=
  match lessonnames.find? (fun nm => nm == identifier) with
  | some nm => .ok nm
  | none => .error .noSuchLesson

/-- Lines 66-89 of `Course.execute_lesson`: try `int(identifier)`; if it
parses, resolve purely by index; otherwise resolve purely by name. -/
def resolveLesson (lessonnames : List String) (identifier : String) :
    Except PyError String :=
  match parseInt identifier with
  | some n => resolveByIndex lessonnames n
  | none => resolveByName lessonnames identifier

/-- The exceptions `Course.load_yaml` can raise: `NoCoursePresentException`
for an empty document list, and Python's `TypeError` when the `Course`
constructor call `cls(coursedir=coursedir, **document)` is missing one
of the required keyword arguments `course`, `lessons`, `author`,
`version` (or receives `coursedir` twice). -/
inductive LoadError where
  | noCoursePresent
  | typeError
deriving DecidableEq, Repr

/-- Record view of the course built by `Course.__init__` (lines 15-23):
`lessonnames` is `lessons.split(";")`, `description` starts empty, and
the remaining keyword arguments land in `extra`. This view reads the
typed fields as the assignments of lines 17-22 leave them; the final
`self.__dict__.update(kwargs)` of line 23, which can overwrite those
very attributes when the document carries a key of the same name, is
modelled faithfully at the `__dict__` level by `initDict` /
`load_yaml_dict` below. -/
structure Course where
  course : String
  lessonnames : List String
  author : String
  description : String
  version : String
  coursedir : String
  extra : List (String × String)
deriving DecidableEq, Repr

/-- `doc.items()` with every key lower-cased, as in
`dict((k.lower(), v) for k, v in y[0].items())`. -/
def lowerDoc (doc : List (String × String)) : List (String × String) :=
  doc.map (fun p => (String.mk (p.1.data.map Char.toLower), p.2))

/-- Lookup in a Python dict built by successive insertion from an
association list: the value of the last occurrence of the key wins. -/
def dictGet (d : List (String × String)) (k : String) : Option String :=
  (d.reverse.find? (fun p => p.1 == k)).map (fun p => p.2)

/-- A keyword that `Course.__init__` binds to a named parameter rather
than letting it fall into `**kwargs`. -/
def isCourseField (k : String) : Bool :=
  k == "course" || k == "lessons" || k == "author" || k == "version" ||
    k == "coursedir"

/-- The call `cls(coursedir=coursedir, **document)` on the lower-cased
first document: Python raises `TypeError` when `course`, `lessons`,
`author` or `version` is missing, or when the document itself carries a
`coursedir` key (duplicate keyword argument); otherwise
`Course.__init__` runs. -/
def mkCourse (doc : List (String × String)) (coursedir : String) :
    Except LoadError Course :=
  let d := lowerDoc doc
  if (dictGet d "coursedir").isSome then .error .typeError
  else
    match dictGet d "course", dictGet d "lessons", dictGet d "author",
        dictGet d "version" with
    | some c, some l, some a, some v =>
      .ok { course := c, lessonnames := pySplitOn l ';', author := a,
            description := "", version := v, coursedir := coursedir,
            extra := d.filter (fun p => !(isCourseField p.1)) }
    | _, _, _, _ => .error .typeError

/-- `Course.load_yaml` (lines 153-170) after YAML parsing: the document
list `y` is checked for at least one element
(`if len(y) < 1: raise NoCoursePresentException()`), then only `y[0]`
is used, keys lower-cased, and the constructor is called. -/
def load_yaml (y : List (List (String × String))) (coursedir : String) :
    Except LoadError Course :=
  match y with
  | [] => .error .noCoursePresent
  | doc :: _ => mkCourse doc coursedir

/-- A value held in a course instance's `__dict__`: either a string
taken from the document (or a literal of `__init__`) or the list
produced by `lessons.split(";")`. -/
inductive PyVal where
  | str (s : String)
  | strList (l : List String)
deriving DecidableEq, Repr

/-- Python `len` of an attribute value. -/
def pyLen : PyVal → Nat
  | .str s => s.length
  | .strList l => l.length

/-- Lookup in the instance `__dict__`, last insertion of a key winning
(the semantics of successive attribute assignment / `dict.update`). -/
def attrGet (d : List (String × PyVal)) (k : String) : Option PyVal :=
  (d.reverse.find? (fun p => p.1 == k)).map (fun p => p.2)

/-- `Course.__init__` (lines 15-23) as it acts on the instance
`__dict__`: the six attribute assignments of lines 17-22 in order,
then `self.__dict__.update(kwargs)` (line 23), which appends the
leftover document entries and thereby overwrites any same-named
attribute — including `lessonnames` or `description` — when the
document happens to carry such a key. -/
def initDict (course lessons author version coursedir : String)
    (kwargs : List (String × String)) : List (String × PyVal) :=
  [("course", PyVal.str course),
   ("lessonnames", PyVal.strList (pySplitOn lessons ';')),
   ("author", PyVal.str author),
   ("description", PyVal.str ""),
   ("version", PyVal.str version),
   ("coursedir", PyVal.str coursedir)] ++
    kwargs.map (fun p => (p.1, PyVal.str p.2))

/-- `Course.load_yaml` observed at the level of the instance `__dict__`:
the same emptiness and keyword checks as `mkCourse`, but the leftover
document keys are applied exactly as `self.__dict__.update(kwargs)`
does, so they can shadow the typed attributes. -/
def load_yaml_dict (y : List (List (String × String)))
    (coursedir : String) : Except LoadError (List (String × PyVal)) :=
  match y with
  | [] => .error .noCoursePresent
  | doc :: _ =>
    let d := lowerDoc doc
    if (dictGet d "coursedir").isSome then .error .typeError
    else
      match dictGet d "course", dictGet d "lessons", dictGet d "author",
          dictGet d "version" with
      | some c, some l, some a, some v =>
        .ok (initDict c l a v coursedir
          (d.filter (fun p => !(isCourseField p.1))))
      | _, _, _, _ => .error .typeError

/-- Abstract filesystem: the temporary directories currently existing on
disk (by numeric id) and the id `tempfile.mkdtemp` hands out next. -/
structure FS where
  dirs : List Nat
  nextTemp : Nat
deriving DecidableEq, Repr

/-- Outcome oracle for the fallible external steps of one lesson attempt:
whether `tarfile.extractall` succeeds, whether each step of the `try`
block (path construction, `open`, `Lesson.load_yaml`, `lesson.execute`)
succeeds, and whether `shutil.rmtree` succeeds. -/
structure AttemptEnv where
  extractOk : Bool
  pathOk : Bool
  openOk : Bool
  parseOk : Bool
  execOk : Bool
  rmtreeOk : Bool
deriving DecidableEq, Repr

/-- The oracle under which every external step succeeds. -/
def allOkEnv : AttemptEnv := ⟨true, true, true, true, true, true⟩

/-- `tempfile.mkdtemp()`: a fresh directory comes into existence and its
id is returned. -/
def mkdtemp (fs : FS) : Nat × FS :=
  (fs.nextTemp, ⟨fs.nextTemp :: fs.dirs, fs.nextTemp + 1⟩)

/-- `shutil.rmtree(d, ignore_errors=True)`: removes `d` when removal
succeeds; on a removal error does nothing and, crucially, raises
nothing either way. -/
def rmtreeIgnoreErrors (ok : Bool) (d : Nat) (fs : FS) : FS :=
  if ok then ⟨fs.dirs.filter (fun x => x ≠ d), fs.nextTemp⟩ else fs

/-- The body of the `try` block of `Course.execute_lesson` (lines
103-120): build the lesson path, open the lesson file, parse it, execute
it; the first failing step raises. -/
def tryBody (env : AttemptEnv) : Except PyError Unit :=
  if !env.pathOk then .error .pathError
  else if !env.openOk then .error .openError
  else if !env.parseOk then .error .parseError
  else if !env.execOk then .error .execError
  else .ok ()

/-- Result of one `Course.execute_lesson` call: the raised exception (if
any), the filesystem afterwards, and the lines printed. -/
structure AttemptRes where
  result : Except PyError Unit
  fs : FS
  output : List String
deriving Repr

/-- `Course.execute_lesson` (lines 60-128) in full: resolve the
identifier (raising `NoSuchLessonException` before any filesystem
activity); for a packaged course call `mkdtemp` and extract the archive
(an `extractall` failure raises with the `try`/`except` not yet
entered); then run the `try` block, printing the completion banner on
success, and on any exception remove the temporary directory
best-effort (`ignore_errors=True`) before re-raising the original
exception. On the success path no cleanup code runs. -/
def execute_lesson (lessonnames : List String) (packaged : Bool)
    (env : AttemptEnv) (identifier : String) (fs : FS) : AttemptRes :=
  match resolveLesson lessonnames identifier with
  | .error e => ⟨.error e, fs, []⟩
  | .ok lessonname =>
    if packaged then
      let td := mkdtemp fs
      if env.extractOk then
        match tryBody env with
        | .ok () => ⟨.ok (), td.2, ["", "Lesson " ++ lessonname ++ " complete!"]⟩
        | .error e => ⟨.error e, rmtreeIgnoreErrors env.rmtreeOk td.1 td.2, []⟩
      else ⟨.error .extractError, td.2, []⟩
    else
      match tryBody env with
      | .ok () => ⟨.ok (), fs, ["", "Lesson " ++ lessonname ++ " complete!"]⟩
      | .error e => ⟨.error e, fs, []⟩

/-- How one pass of the selection loop ends: `done` only via end-of-input
(`EOFError`), `crashed e` when an exception other than
`NoSuchLessonException` escapes `execute_lesson` and so the loop. -/
inductive LoopOutcome where
  | done
  | crashed (e : PyError)
deriving DecidableEq, Repr

/-- Result of `Course.execute`: how the loop ended, everything printed,
and the final filesystem. -/
structure LoopRun where
  outcome : LoopOutcome
  output : List String
  fs : FS
deriving Repr

/-- The menu printed by `Course.menu` (lines 34-38): one-based index and
name for every lesson. -/
def menuLines (lessonnames : List String) : List String :=
  lessonnames.enum.map (fun p => toString (p.1 + 1) ++ ": " ++ p.2)

/-- The `"No lesson: %s" % identifier` message printed by the `except`
handler in `Course.execute` (line 52): `identifier` there is the
stripped input line read at line 49. The `identifier = int(identifier)`
conversion inside `execute_lesson` rebinds only that method's local
parameter, so the caller's original string is what gets formatted
(input `"07"` prints `No lesson: 07`, not `No lesson: 7`). -/
def noLessonMsg (identifier : String) : String :=
  "No lesson: " ++ identifier

/-- `Course.execute` (lines 40-58): print the menu, prompt, strip the
input line, run the lesson; `NoSuchLessonException` is caught and
reported and the loop continues; any other exception escapes the loop;
end of the input stream makes `input` raise `EOFError`, on which a blank
line and `Bye!` are printed and the loop breaks. Each input line carries
the outcome oracle for its attempt. -/
def executeLoop (lessonnames : List String) (packaged : Bool) :
    List (String × AttemptEnv) → FS → LoopRun
  | [], fs => ⟨.done, menuLines lessonnames ++ ["Selection: ", "", "Bye!"], fs⟩
  | (s, env) :: rest, fs =>
    let ident := pyStrip s
    let a := execute_lesson lessonnames packaged env ident fs
    match a.result with
    | .ok () =>
      let r := executeLoop lessonnames packaged rest a.fs
      ⟨r.outcome,
       menuLines lessonnames ++ ["Selection: "] ++ a.output ++ r.output, r.fs⟩
    | .error .noSuchLesson =>
      let r := executeLoop lessonnames packaged rest a.fs
      ⟨r.outcome,
       menuLines lessonnames ++ ["Selection: ", noLessonMsg ident] ++ r.output,
       r.fs⟩
    | .error e =>
      ⟨.crashed e, menuLines lessonnames ++ ["Selection: "] ++ a.output, a.fs⟩

/-- `str.split` always yields at least one piece. -/
theorem pySplitChars_ne_nil (sep : Char) (l : List Char) :
    pySplitChars sep l ≠ [] := by
  induction l with
  | nil => simp [pySplitChars]
  | cons c rest ih =>
    simp only [pySplitChars]
    split
    · simp
    · cases h : pySplitChars sep rest with
      | nil => exact absurd h ih
      | cons a t => simp

theorem pySplitOn_ne_nil (s : String) (sep : Char) :
    pySplitOn s sep ≠ [] := by
  simp only [pySplitOn, ne_eq, List.map_eq_nil_iff]
  exact pySplitChars_ne_nil sep s.data

/-- C1: the claim says that after any lesson attempt on a packaged course
the temporary extraction directory no longer exists. The code removes it
only in the `except` branch of the `try` block: after a fully successful
attempt the directory is still on disk, and it is also left behind when
`extractall` itself fails (that call precedes the `try`). Evaluated on a
one-lesson packaged course starting from an empty filesystem: the
attempt succeeds yet directory `0` still exists, and likewise under an
extraction failure. -/
theorem execute_lesson_leaks_tempdir_on_success :
    (execute_lesson ["Intro"] true allOkEnv "1" ⟨[], 0⟩).result = .ok () ∧
    (execute_lesson ["Intro"] true allOkEnv "1" ⟨[], 0⟩).fs.dirs = [0] ∧
    (execute_lesson ["Intro"] true ⟨false, true, true, true, true, true⟩
      "1" ⟨[], 0⟩).fs.dirs = [0] :=
  ⟨rfl, rfl, rfl⟩

/-- C2: the claim says selector `"0"` and negative selectors never
resolve. Because the code indexes `lessonnames[int(identifier) - 1]`
and Python indexing wraps negative indices around the end, selector
`"0"` resolves to the last lesson and `"-1"` to the second-to-last;
only integers below `1 - len` (or above `len`) raise
`NoSuchLessonException`. -/
theorem resolveLesson_zero_wraps_around :
    resolveLesson ["Intro", "Basics"] "0" = .ok "Basics" ∧
    resolveLesson ["Intro", "Basics"] "-1" = .ok "Intro" ∧
    resolveLesson ["Intro", "Basics"] "3" = .error .noSuchLesson :=
  ⟨rfl, rfl, rfl⟩

/-- C5: a selector that parses as an integer is resolved purely by index
lookup (`resolveByIndex`), never by comparison against the lesson
names — whatever the lesson names are. -/
theorem resolveLesson_int_goes_by_index (lessonnames : List String)
    (s : String) (n : Int) (h : parseInt s = some n) :
    resolveLesson lessonnames s = resolveByIndex lessonnames n := by
  simp [resolveLesson, h]

/-- Witness for C5 at a lesson literally named `"2"`: the selector `"2"`
parses as the integer 2, resolution goes through the index branch, and
on the one-lesson course `["2"]` it therefore fails even though the name
matches exactly. -/
theorem resolveLesson_int_goes_by_index_witness :
    parseInt "2" = some 2 ∧
    resolveLesson ["2"] "2" = resolveByIndex ["2"] 2 ∧
    resolveLesson ["2"] "2" = .error .noSuchLesson ∧
    resolveByName ["2"] "2" = .ok "2" :=
  ⟨rfl, resolveLesson_int_goes_by_index ["2"] "2" 2 rfl, rfl, rfl⟩

/-- C6: loading an empty document list fails with
`NoCoursePresentException` (producing no course), and a non-empty
document list is loaded from its first element alone. -/
theorem load_yaml_first_element_only (dir : String)
    (doc : List (String × String)) (rest : List (List (String × String))) :
    load_yaml [] dir = .error .noCoursePresent ∧
    load_yaml (doc :: rest) dir = mkCourse doc dir :=
  ⟨rfl, rfl⟩

/-- C3: a selector that parses as an integer `i` with `1 ≤ i ≤ len`
resolves to the lesson at position `i - 1` (one-based indexing). -/
theorem resolveLesson_valid_index (lessonnames : List String) (s : String)
    (i : Nat) (hs : parseInt s = some (i : Int)) (h1 : 1 ≤ i)
    (h2 : i ≤ lessonnames.length) :
    resolveLesson lessonnames s = .ok (lessonnames.get ⟨i - 1, by omega⟩) := by
  have hj : ¬ ((i : Int) - 1 < 0) := by omega
  have htn : ((i : Int) - 1).toNat = i - 1 := by omega
  have hlt : i - 1 < lessonnames.length := by omega
  simp only [resolveLesson, hs, resolveByIndex, pyListGet]
  rw [if_neg hj, if_neg hj, htn, List.get?_eq_getElem?,
    List.getElem?_eq_getElem hlt]
  simp [List.get_eq_getElem]

/-- Witness for C3: on `["Intro", "Basics", "Advanced"]` the selector
`"2"` resolves to `"Basics"`. -/
theorem resolveLesson_valid_index_witness :
    parseInt "2" = some 2 ∧ (1 : Nat) ≤ 2 ∧ 2 ≤ 3 ∧
    resolveLesson ["Intro", "Basics", "Advanced"] "2" = .ok "Basics" :=
  ⟨rfl, by omega, by omega,
    resolveLesson_valid_index ["Intro", "Basics", "Advanced"] "2" 2 rfl
      (by omega) (by decide)⟩

/-- C4: a selector that does not parse as an integer is treated as a
lesson name: if it occurs in the list, resolution yields the first
matching element (which is the selector itself); if it occurs nowhere,
resolution raises `NoSuchLessonException`. -/
theorem resolveLesson_by_name (lessonnames : List String) (s : String)
    (h : parseInt s = none) :
    (s ∈ lessonnames → resolveLesson lessonnames s = .ok s) ∧
    (s ∉ lessonnames → resolveLesson lessonnames s = .error .noSuchLesson) := by
  have hres : resolveLesson lessonnames s = resolveByName lessonnames s := by
    simp [resolveLesson, h]
  constructor
  · intro hmem
    rw [hres]
    unfold resolveByName
    cases hf : lessonnames.find? (fun nm => nm == s) with
    | none =>
      rw [List.find?_eq_none] at hf
      exact absurd (by simp) (hf s hmem)
    | some nm =>
      have h1 := List.find?_some hf
      have h2 : nm = s := by simpa using h1
      simp [h2]
  · intro hmem
    rw [hres]
    unfold resolveByName
    cases hf : lessonnames.find? (fun nm => nm == s) with
    | none => rfl
    | some nm =>
      have h1 := List.find?_some hf
      have h2 := List.mem_of_find?_eq_some hf
      have h3 : nm = s := by simpa using h1
      rw [h3] at h2
      exact absurd h2 hmem

/-- Witness for C4: `"Basics"` (present) resolves to itself, `"Zed"`
(absent) raises `NoSuchLessonException`; neither parses as an integer. -/
theorem resolveLesson_by_name_witness :
    parseInt "Basics" = none ∧ parseInt "Zed" = none ∧
    resolveLesson ["Intro", "Basics"] "Basics" = .ok "Basics" ∧
    resolveLesson ["Intro", "Basics"] "Zed" = .error .noSuchLesson :=
  ⟨rfl, rfl,
    (resolveLesson_by_name ["Intro", "Basics"] "Basics" rfl).1 (by simp),
    (resolveLesson_by_name ["Intro", "Basics"] "Zed" rfl).2 (by simp)⟩

/-- `find?` skips a prefix in which nothing satisfies the predicate. -/
theorem find?_append_of_none {α : Type} (p : α → Bool) (l₁ l₂ : List α)
    (h : l₁.find? p = none) : (l₁ ++ l₂).find? p = l₂.find? p := by
  induction l₁ with
  | nil => simp
  | cons a t ih =>
    cases hpa : p a with
    | true => simp [List.find?, hpa] at h
    | false =>
      simp only [List.cons_append, List.find?, hpa] at h ⊢
      exact ih h

/-- After `Course.__init__`, the `lessonnames` attribute is the split of
the `lessons` argument — provided no keyword argument is itself named
`lessonnames` (otherwise `__dict__.update` overwrites it). -/
theorem attrGet_initDict_lessonnames (c l a v dir : String)
    (kwargs : List (String × String))
    (hk : ∀ p ∈ kwargs, p.1 ≠ "lessonnames") :
    attrGet (initDict c l a v dir kwargs) "lessonnames" =
      some (PyVal.strList (pySplitOn l ';')) := by
  unfold attrGet initDict
  rw [List.reverse_append]
  have hnone : (kwargs.map (fun p => (p.1, PyVal.str p.2))).reverse.find?
      (fun p => p.1 == "lessonnames") = none := by
    rw [List.find?_eq_none]
    intro x hx
    simp only [List.mem_reverse, List.mem_map] at hx
    obtain ⟨q, hq, rfl⟩ := hx
    simpa using hk q hq
  rw [find?_append_of_none _ _ _ hnone]
  rfl

/-- Counterexample to C7 as stated: a course document may itself carry a
key `lessonnames`; it is not a named parameter of `Course.__init__`, so
it lands in `**kwargs` and `self.__dict__.update(kwargs)` overwrites
the freshly split list. The document below loads successfully, yet the
final `lessonnames` attribute is the empty string — not a list at all,
and of length zero. -/
theorem load_yaml_dict_shadowed_lessonnames_empty :
    load_yaml_dict [[("Course", "C"), ("Lessons", "A;B"), ("Author", "a"),
      ("Version", "1"), ("lessonnames", "")]] "/c" =
      .ok [("course", PyVal.str "C"),
           ("lessonnames", PyVal.strList ["A", "B"]),
           ("author", PyVal.str "a"),
           ("description", PyVal.str ""),
           ("version", PyVal.str "1"),
           ("coursedir", PyVal.str "/c"),
           ("lessonnames", PyVal.str "")] ∧
    attrGet [("course", PyVal.str "C"),
           ("lessonnames", PyVal.strList ["A", "B"]),
           ("author", PyVal.str "a"),
           ("description", PyVal.str ""),
           ("version", PyVal.str "1"),
           ("coursedir", PyVal.str "/c"),
           ("lessonnames", PyVal.str "")] "lessonnames" =
      some (PyVal.str "") ∧
    pyLen (PyVal.str "") = 0 :=
  ⟨rfl, rfl, rfl⟩

/-- C7 (amended): after every successful load of a document whose first
element carries no `lessonnames` key (after lower-casing), the
`lessonnames` attribute is the `";"`-split of the `lessons` field and
is therefore non-empty — splitting always yields at least one piece (an
empty `lessons` string still yields the single name `""`). Without that
proviso a document key `lessonnames` shadows the attribute through
`self.__dict__.update(kwargs)` and can leave it empty. -/
theorem load_yaml_dict_unshadowed_lessonnames_ne_nil
    (doc : List (String × String)) (rest : List (List (String × String)))
    (dir : String) (attrs : List (String × PyVal))
    (h : load_yaml_dict (doc :: rest) dir = .ok attrs)
    (hno : dictGet (lowerDoc doc) "lessonnames" = none) :
    ∃ ls, attrGet attrs "lessonnames" = some (PyVal.strList ls) ∧ ls ≠ [] := by
  have hfind : (lowerDoc doc).reverse.find?
      (fun q => q.1 == "lessonnames") = none := by
    simpa [dictGet] using hno
  have hk : ∀ p ∈ (lowerDoc doc).filter (fun p => !(isCourseField p.1)),
      p.1 ≠ "lessonnames" := by
    intro p hp heq
    have hmem : p ∈ lowerDoc doc := List.mem_of_mem_filter hp
    rw [List.find?_eq_none] at hfind
    exact absurd (by simp [heq]) (hfind p (List.mem_reverse.mpr hmem))
  simp only [load_yaml_dict] at h
  split at h
  · exact absurd h (by simp)
  · split at h
    · cases h
      exact ⟨pySplitOn _ ';', attrGet_initDict_lessonnames _ _ _ _ _ _ hk,
        pySplitOn_ne_nil _ ';'⟩
    · exact absurd h (by simp)

/-- Witness for the amended C7: a document without a `lessonnames` key
loads to a `__dict__` whose `lessonnames` attribute is the non-empty
list `["A", "B"]`. -/
theorem load_yaml_dict_unshadowed_lessonnames_ne_nil_witness :
    load_yaml_dict [[("Course", "C"), ("Lessons", "A;B"), ("Author", "a"),
      ("Version", "1")]] "/c" =
      .ok [("course", PyVal.str "C"),
           ("lessonnames", PyVal.strList ["A", "B"]),
           ("author", PyVal.str "a"),
           ("description", PyVal.str ""),
           ("version", PyVal.str "1"),
           ("coursedir", PyVal.str "/c")] ∧
    dictGet (lowerDoc [("Course", "C"), ("Lessons", "A;B"), ("Author", "a"),
      ("Version", "1")]) "lessonnames" = none ∧
    ∃ ls, attrGet [("course", PyVal.str "C"),
           ("lessonnames", PyVal.strList ["A", "B"]),
           ("author", PyVal.str "a"),
           ("description", PyVal.str ""),
           ("version", PyVal.str "1"),
           ("coursedir", PyVal.str "/c")] "lessonnames" =
        some (PyVal.strList ls) ∧ ls ≠ [] :=
  ⟨rfl, rfl, load_yaml_dict_unshadowed_lessonnames_ne_nil
    [("Course", "C"), ("Lessons", "A;B"), ("Author", "a"), ("Version", "1")]
    [] "/c"
    [("course", PyVal.str "C"),
     ("lessonnames", PyVal.strList ["A", "B"]),
     ("author", PyVal.str "a"),
     ("description", PyVal.str ""),
     ("version", PyVal.str "1"),
     ("coursedir", PyVal.str "/c")] rfl rfl⟩

/-- C10: when the lower-cased first document lacks any of the keys
`course`, `lessons`, `author`, `version`, loading raises Python's
`TypeError` (a missing constructor argument), which is distinct from
`NoCoursePresentException`, and no course is produced. -/
theorem load_yaml_missing_field_typeError (doc : List (String × String))
    (rest : List (List (String × String))) (dir : String)
    (h : dictGet (lowerDoc doc) "course" = none ∨
         dictGet (lowerDoc doc) "lessons" = none ∨
         dictGet (lowerDoc doc) "author" = none ∨
         dictGet (lowerDoc doc) "version" = none) :
    load_yaml (doc :: rest) dir = .error .typeError ∧
    (LoadError.typeError ≠ LoadError.noCoursePresent) := by
  refine ⟨?_, by simp⟩
  show mkCourse doc dir = .error .typeError
  simp only [mkCourse]
  split
  · rfl
  · split
    · rcases h with h | h | h | h <;> simp_all
    · rfl

/-- Witness for C10: a document missing `author` fails with `TypeError`. -/
theorem load_yaml_missing_field_typeError_witness :
    dictGet (lowerDoc [("Course", "C"), ("Lessons", "x"), ("Version", "1")])
      "author" = none ∧
    load_yaml [[("Course", "C"), ("Lessons", "x"), ("Version", "1")]] "/c" =
      .error .typeError :=
  ⟨rfl, (load_yaml_missing_field_typeError
    [("Course", "C"), ("Lessons", "x"), ("Version", "1")] [] "/c"
    (Or.inr (Or.inr (Or.inl rfl)))).1⟩

/-- C8: on a packaged course, when extraction succeeds but any step of
the `try` block fails (path construction, open, parse, execute), the
original exception is what propagates — whether or not the best-effort
`shutil.rmtree` itself succeeds — and when removal succeeds the
temporary directory is gone from the filesystem. -/
theorem execute_lesson_cleanup_on_try_failure (lessonnames : List String)
    (env : AttemptEnv) (identifier : String) (fs : FS) (nm : String)
    (e : PyError) (hres : resolveLesson lessonnames identifier = .ok nm)
    (hex : env.extractOk = true) (htry : tryBody env = .error e) :
    (execute_lesson lessonnames true env identifier fs).result = .error e ∧
    (env.rmtreeOk = true →
      ¬ (mkdtemp fs).1 ∈ (execute_lesson lessonnames true env identifier fs).fs.dirs) := by
  constructor
  · simp [execute_lesson, hres, hex, htry]
  · intro hrm
    simp [execute_lesson, hres, hex, htry, rmtreeIgnoreErrors, hrm, mkdtemp,
      List.mem_filter]

/-- Witness for C8: a packaged one-lesson course whose lesson file fails
to open; the `openError` propagates and temp directory `0` is gone. -/
theorem execute_lesson_cleanup_on_try_failure_witness :
    (execute_lesson ["Intro"] true ⟨true, true, false, true, true, true⟩
      "1" ⟨[], 0⟩).result = .error .openError ∧
    ¬ (0 ∈ (execute_lesson ["Intro"] true ⟨true, true, false, true, true, true⟩
      "1" ⟨[], 0⟩).fs.dirs) :=
  ⟨(execute_lesson_cleanup_on_try_failure ["Intro"]
      ⟨true, true, false, true, true, true⟩ "1" ⟨[], 0⟩ "Intro" .openError
      rfl rfl rfl).1,
   (execute_lesson_cleanup_on_try_failure ["Intro"]
      ⟨true, true, false, true, true, true⟩ "1" ⟨[], 0⟩ "Intro" .openError
      rfl rfl rfl).2 rfl⟩

/-- C9: the selection loop recovers a `NoSuchLessonException` locally —
it prints the no-lesson message and continues with the remaining input,
its final outcome being whatever the rest of the input produces — while
end-of-input is the terminating condition: the loop prints a farewell
and ends in `done` without raising. -/
theorem executeLoop_recovers_noSuchLesson (lessonnames : List String)
    (packaged : Bool) (fs : FS) :
    executeLoop lessonnames packaged [] fs =
      ⟨.done, menuLines lessonnames ++ ["Selection: ", "", "Bye!"], fs⟩ ∧
    ∀ s env rest,
      resolveLesson lessonnames (pyStrip s) = .error .noSuchLesson →
      executeLoop lessonnames packaged ((s, env) :: rest) fs =
        ⟨(executeLoop lessonnames packaged rest fs).outcome,
         menuLines lessonnames ++
           ["Selection: ", noLessonMsg (pyStrip s)] ++
           (executeLoop lessonnames packaged rest fs).output,
         (executeLoop lessonnames packaged rest fs).fs⟩ := by
  refine ⟨rfl, ?_⟩
  intro s env rest h
  have ha : execute_lesson lessonnames packaged env (pyStrip s) fs =
      ⟨.error .noSuchLesson, fs, []⟩ := by
    simp [execute_lesson, h]
  simp [executeLoop, ha]

/-- Witness for C9: on the one-lesson course `["A"]`, input `"B"`
(unresolvable) followed by end-of-input: the loop reports the bad
selector, loops, and ends in `done` via the farewell path. The input
`" 07 "` (stripped to the out-of-range index `"07"`) is reported as
`No lesson: 07` — the caller's stripped string, not the parsed int. -/
theorem executeLoop_recovers_noSuchLesson_witness :
    resolveLesson ["A"] (pyStrip "B") = .error .noSuchLesson ∧
    executeLoop ["A"] false [("B", allOkEnv)] ⟨[], 0⟩ =
      ⟨(executeLoop ["A"] false [] ⟨[], 0⟩).outcome,
       menuLines ["A"] ++ ["Selection: ", noLessonMsg (pyStrip "B")] ++
         (executeLoop ["A"] false [] ⟨[], 0⟩).output,
       (executeLoop ["A"] false [] ⟨[], 0⟩).fs⟩ ∧
    resolveLesson ["A"] (pyStrip " 07 ") = .error .noSuchLesson ∧
    executeLoop ["A"] false [(" 07 ", allOkEnv)] ⟨[], 0⟩ =
      ⟨(executeLoop ["A"] false [] ⟨[], 0⟩).outcome,
       menuLines ["A"] ++ ["Selection: ", noLessonMsg (pyStrip " 07 ")] ++
         (executeLoop ["A"] false [] ⟨[], 0⟩).output,
       (executeLoop ["A"] false [] ⟨[], 0⟩).fs⟩ ∧
    noLessonMsg (pyStrip " 07 ") = "No lesson: 07" :=
  ⟨rfl,
   (executeLoop_recovers_noSuchLesson ["A"] false ⟨[], 0⟩).2 "B"
     allOkEnv [] rfl,
   rfl,
   (executeLoop_recovers_noSuchLesson ["A"] false ⟨[], 0⟩).2 " 07 "
     allOkEnv [] rfl,
   rfl⟩
